import Mathlib

/-!
Verification development for the chat-session / message-relay core of the
`energy_back` backend (packages `messages`, `get_message`, `rabbit`).

Shallow embedding conventions:
* Timestamps (`datetime.utcnow()`) are modelled as `Int` seconds; the two
  TTL constants become `120` (2 minutes, `messages/router.py`) and `3600`
  (1 hour, `get_message/router.py`).
* The relational store is a record of three row lists (`sessions`,
  `messages`, `leads`), mirroring the SQLAlchemy models in
  `messages/models.py`.  The autoincrement surrogate `Session.id` column is
  not used by any modelled operation and is omitted; `session_id` (declared
  `unique=True`) serves as the key.  DB-assigned values (new row ids, fresh
  UUIDs) are passed in as explicit parameters.
* A SQLAlchemy `AsyncSession` is a `Store`: a committed database plus a
  pending working copy.  `commit` persists the pending copy, `rollback`
  discards uncommitted changes and restores the committed one.
* Broker interactions (`aio_pika`) are recorded as an effect trace; a
  publish failure is injected through a `publishOk : Bool` flag: the
  publish call is still attempted (and traced) and then raises.
* `datetime.isoformat` is an abstract rendering parameter
  `iso : Int → String`.
-/

/-- `messages/models.py` (also `messages/schemas.py`): `MessageRole` enum. -/
inductive MessageRole where
  | LEAD
  | BOT
  | MANAGER
deriving DecidableEq, Repr

/-- `messages/models.py`: the `sessions` table.  Columns in source order
(`session_id`, `user_id`, `created_at`, `last_active`); the surrogate
integer primary key is omitted (unused by the modelled operations).
`user_id` is declared `nullable=False` (models.py line 44), so every
stored row carries one; an INSERT omitting it raises an IntegrityError and
stores nothing (see `GetMessageCrud.create_session`). -/
structure SessionRow where
  session_id : String
  user_id : String
  created_at : Int
  last_active : Int
deriving DecidableEq, Repr

/-- `messages/models.py`: the `messages` table, columns in source order.
`role` is declared `nullable=False` (models.py line 19), so every stored
row carries one; an INSERT supplying no role raises an IntegrityError and
stores nothing (see `GetMessageCrud.create_message`). -/
structure MessageRow where
  id : Nat
  text : String
  sender : String
  role : MessageRole
  session_id : String
  created_at : Option Int
  is_sent_to_rabbitmq : Bool
  is_processed_by_bot : Bool
deriving DecidableEq, Repr

/-- `messages/models.py`: the `leads` table, columns in source order. -/
structure LeadRow where
  id : Nat
  first_name : Option String
  last_name : Option String
  session_id : String
deriving DecidableEq, Repr

/-- The relational store: one list per table of `messages/models.py`. -/
structure DB where
  sessions : List SessionRow
  messages : List MessageRow
  leads : List LeadRow
deriving DecidableEq, Repr

/-- A database-driver error surfaced to the application, raised when a
statement violates a schema constraint (here: inserting NULL into a
`nullable=False` column, named by the argument). -/
inductive DbError where
  | integrityError (column : String)
deriving DecidableEq, Repr

/-- A SQLAlchemy `AsyncSession`: the durably committed database plus the
pending (uncommitted) working copy seen by reads inside the session. -/
structure Store where
  committed : DB
  pending : DB
deriving DecidableEq, Repr

/-- `await db.commit()`: persist the pending state. -/
def Store.commit (s : Store) : Store :=
  { committed := s.pending, pending := s.pending }

/-- `await db.rollback()`: discard uncommitted changes.  It cannot undo a
previous `commit`. -/
def Store.rollback (s : Store) : Store :=
  { committed := s.committed, pending := s.committed }

/-- Flat JSON values, enough for the relay wire format (all fields of the
published object are primitives). -/
inductive JsonVal where
  | str (s : String)
  | num (n : Int)
  | null
deriving DecidableEq, Repr

/-- Observable broker-client interactions (`aio_pika` calls). -/
inductive Effect where
  | brokerConnect
  | queueDeclare (name : String) (durable : Bool)
  | publish (body : List (String × JsonVal)) (persistent : Bool)
      (routingKey : String)
deriving DecidableEq, Repr

/-- Number of publish calls in a trace. -/
def countPublishes (effs : List Effect) : Nat :=
  effs.countP (fun e => match e with
    | .publish _ _ _ => true
    | _ => false)

/-- Mutation of the first matching ORM row in a table (assigning to an
attribute of the object returned by `.scalars().first()`). -/
def updateFirst (p : α → Bool) (f : α → α) : List α → List α
  | [] => []
  | x :: xs => if p x then f x :: xs else x :: updateFirst p f xs

/-- `messages/router.py` line 216: the dict `message_data_for_rabbitmq`
(keys in construction order `session_id, id, text, sender, created_at`;
`created_at` already rendered by `isoformat` or `None`). -/
structure MessageData where
  session_id : String
  id : Nat
  text : String
  sender : String
  created_at : Option String
deriving DecidableEq, Repr

/-- `json.dumps(message_data)`: the published JSON object, keys in the
dict's insertion order. -/
def MessageData.toJson (md : MessageData) : List (String × JsonVal) :=
  [ ("session_id", .str md.session_id)
  , ("id", .num (md.id : Int))
  , ("text", .str md.text)
  , ("sender", .str md.sender)
  , ("created_at", match md.created_at with
      | some s => .str s
      | none => .null) ]

namespace MessagesRouter

/-- `messages/router.py` line 32: `SESSION_LIFETIME = timedelta(minutes=2)`,
in seconds. -/
def SESSION_LIFETIME : Int := 120

/-- `messages/router.py` line 139: `QUEUE_NAME = "message_queue"`. -/
def QUEUE_NAME : String := "message_queue"

/-- Outcome of `send_to_rabbitmq`. -/
inductive RelayOutcome where
  | noMessage
  | published
  | raised
deriving DecidableEq, Repr

/-- `messages/router.py` lines 137-181, `send_to_rabbitmq`:
re-fetch the message by id (`None` → log and `return`); set
`is_sent_to_rabbitmq = True` and `commit`; then connect, declare the
durable queue and publish `json.dumps(message_data)` with persistent
delivery.  On a broker exception, `rollback` and re-raise.  The broker
failure is injected at the publish call via `publishOk`. -/
def send_to_rabbitmq (md : MessageData) (publishOk : Bool) (st : Store) :
    Store × RelayOutcome × List Effect :=
  match st.pending.messages.find? (fun m => m.id == md.id) with
  | none => (st, .noMessage, [])
  | some _ =>
    let st1 := Store.commit
      { st with
        pending := { st.pending with
          messages := updateFirst (fun m => m.id == md.id)
            (fun m => { m with is_sent_to_rabbitmq := true })
            st.pending.messages } }
    let effs : List Effect :=
      [ .brokerConnect
      , .queueDeclare QUEUE_NAME true
      , .publish md.toJson true QUEUE_NAME ]
    if publishOk then
      (st1, .published, effs)
    else
      (Store.rollback st1, .raised, effs)

end MessagesRouter

/-- SQL result semantics for a `select(Message)` query: a `where` filter and
an optional ascending `order_by` key.  A statement without `order_by` does
not constrain the order of the returned rows. -/
structure MsgQuery where
  wherePred : MessageRow → Bool
  orderKey : Option (MessageRow → Int)

/-- `out` is a possible result of executing `q` against `db`: a permutation
of the matching rows, sorted by the key whenever an `order_by` is present. -/
def queryResult (db : DB) (q : MsgQuery) (out : List MessageRow) : Prop :=
  out.Perm (db.messages.filter q.wherePred) ∧
  ∀ k, q.orderKey = some k → out.Pairwise (fun a b => k a ≤ k b)

/-- Python `str.strip()`: remove leading and trailing whitespace. -/
def pyStrip (s : String) : String :=
  ⟨((s.data.dropWhile Char.isWhitespace).reverse.dropWhile Char.isWhitespace).reverse⟩

namespace MessagesSchemas

/-- `messages/schemas.py` lines 18-22: `MessageCreate` (pydantic), fields in
source order; `session_id: Optional[str] = None`. -/
structure MessageCreate where
  text : String
  sender : String
  role : MessageRole
  session_id : Option String
deriving DecidableEq, Repr

/-- `messages/schemas.py` lines 24-30, `MessageCreate.validate_text`:
reject a text whose `strip()` is empty (`if not value.strip()`). -/
def validate_text (value : String) : Except String String :=
  if pyStrip value == "" then .error "Текст сообщения не может быть пустым"
  else .ok value

/-- Pydantic validation of a request body against `MessageCreate`: the
`text` field validator runs before the route handler is entered. -/
def parse_message_create (text sender : String) (role : MessageRole)
    (session_id : Option String) : Except String MessageCreate :=
  match validate_text text with
  | .error e => .error e
  | .ok t => .ok { text := t, sender := sender, role := role, session_id := session_id }

end MessagesSchemas

namespace MessagesRouter

/-- Outcome of the `POST /` handler `receive_message`. -/
inductive ReceiveOutcome where
  | ok (session_id : String)
  | clientError
  | notFound
  | relayRaised
deriving DecidableEq, Repr

/-- `messages/router.py` lines 185-227, `receive_message`: reject a falsy
`session_id` (`None` or `""`) with a 400; 404 when the session row does not
exist; otherwise persist the message (`created_at = utcnow`, flags default
`false`) and, unless the role is `BOT`, build `message_data_for_rabbitmq`
and call `send_to_rabbitmq` (whose exception propagates).  `newId` is the
DB-assigned message id, `iso` renders `datetime.isoformat`. -/
def receive_message (mc : MessagesSchemas.MessageCreate) (now : Int) (newId : Nat)
    (iso : Int → String) (publishOk : Bool) (st : Store) :
    Store × ReceiveOutcome × List Effect :=
  match mc.session_id with
  | none => (st, .clientError, [])
  | some sid =>
    if sid == "" then (st, .clientError, [])
    else
      match st.pending.sessions.find? (fun s => s.session_id == sid) with
      | none => (st, .notFound, [])
      | some _ =>
        let row : MessageRow :=
          { id := newId, text := mc.text, sender := mc.sender,
            role := mc.role, session_id := sid, created_at := some now,
            is_sent_to_rabbitmq := false, is_processed_by_bot := false }
        let st1 := Store.commit
          { st with
            pending := { st.pending with
              messages := st.pending.messages ++ [row] } }
        if mc.role ≠ MessageRole.BOT then
          let md : MessageData :=
            { session_id := sid, id := newId, text := mc.text,
              sender := mc.sender, created_at := some (iso now) }
          let r := send_to_rabbitmq md publishOk st1
          (r.1, if r.2.1 = .raised then .relayRaised else .ok sid, r.2.2)
        else (st1, .ok sid, [])

/-- Outcome of the full route including pydantic request validation. -/
inductive EndpointOutcome where
  | validationError
  | handled (r : ReceiveOutcome)
deriving DecidableEq, Repr

/-- The `POST /` route as seen by a client: FastAPI validates the body
against `MessagesSchemas.MessageCreate` first (a validation failure is a
client error and the handler never runs), then `receive_message` executes. -/
def post_message (text sender : String) (role : MessageRole)
    (session_id : Option String) (now : Int) (newId : Nat)
    (iso : Int → String) (publishOk : Bool) (st : Store) :
    Store × EndpointOutcome × List Effect :=
  match MessagesSchemas.parse_message_create text sender role session_id with
  | .error _ => (st, .validationError, [])
  | .ok mc =>
    let r := receive_message mc now newId iso publishOk st
    (r.1, .handled r.2.1, r.2.2)

/-- `messages/router.py` lines 61-76, `create_new_session`: insert a session
with a fresh uuid (`newSid`), `created_at = last_active = utcnow`, commit. -/
def create_new_session (user_id : String) (now : Int) (newSid : String)
    (db : DB) : String × DB :=
  let row : SessionRow :=
    { session_id := newSid, user_id := user_id,
      created_at := now, last_active := now }
  (newSid, { db with sessions := db.sessions ++ [row] })

/-- `messages/router.py` lines 36-59, `get_or_create_session` (the
`user_id`-keyed, 2-minute flow): take the first session with this
`user_id`; if `utcnow - last_active > SESSION_LIFETIME` create a new
session, else bump `last_active` and return the existing `session_id`;
create a new session when none matches. -/
def get_or_create_session (user_id : String) (now : Int) (newSid : String)
    (db : DB) : String × DB :=
  match db.sessions.find? (fun s => s.user_id == user_id) with
  | some s =>
    if now - s.last_active > SESSION_LIFETIME then
      create_new_session user_id now newSid db
    else
      (s.session_id,
        { db with
          sessions := updateFirst (fun r => r.user_id == user_id)
            (fun r => { r with last_active := now }) db.sessions })
  | none => create_new_session user_id now newSid db

/-- `messages/router.py` lines 85-89: the statement issued by
`get_message_history` — filter by `session_id`, `order_by(Message.id.asc())`. -/
def historyQuery (session_id : String) : MsgQuery :=
  { wherePred := fun m => m.session_id == session_id,
    orderKey := some (fun m => (m.id : Int)) }

/-- `messages/router.py` lines 264-275, `cleanup_expired_sessions`: delete
every session with `last_active < utcnow - SESSION_LIFETIME`; the deletes
cascade to the session's messages and lead (`messages/models.py` lines
48-49, `cascade="all, delete-orphan"` / `ondelete="CASCADE"`). -/
def cleanup_expired_sessions (now : Int) (db : DB) : DB :=
  let cutoff := now - SESSION_LIFETIME
  let expiredIds :=
    (db.sessions.filter (fun s => decide (s.last_active < cutoff))).map
      (fun s => s.session_id)
  { sessions := db.sessions.filter (fun s => !decide (s.last_active < cutoff)),
    messages := db.messages.filter
      (fun m => !decide (m.session_id ∈ expiredIds)),
    leads := db.leads.filter (fun l => !decide (l.session_id ∈ expiredIds)) }

end MessagesRouter

namespace GetMessageSchemas

/-- `get_message/schemas.py` lines 3-17: `MessageCreate` (pydantic), fields
in source order.  This schema declares no field validator. -/
structure MessageCreate where
  text : String
  sender : String
  session_id : String
deriving DecidableEq, Repr

/-- Pydantic validation of a request body against this schema: with no
validator declared, every `text` value is accepted. -/
def parse_message_create (text sender session_id : String) :
    Except String MessageCreate :=
  .ok { text := text, sender := sender, session_id := session_id }

end GetMessageSchemas

namespace GetMessageCrud

/-- `get_message/crud.py` lines 141-159, `get_session`: select the session
by `session_id` (`scalar_one_or_none`; `session_id` is unique). -/
def get_session (db : DB) (session_id : String) : Option SessionRow :=
  db.sessions.find? (fun s => s.session_id == session_id)

/-- `get_message/crud.py` lines 163-179, `update_last_active`:
`UPDATE sessions SET last_active = utcnow WHERE session_id = :sid`, commit. -/
def update_last_active (db : DB) (session_id : String) (now : Int) : DB :=
  { db with
    sessions := db.sessions.map (fun s =>
      if s.session_id == session_id then { s with last_active := now } else s) }

/-- `get_message/crud.py` lines 183-203, `create_session`: generate a fresh
uuid (`newSid`) and execute
`INSERT INTO sessions (session_id, created_at, last_active) VALUES (...)`.
The statement supplies no `user_id`, but `Session.user_id` is
`nullable=False` (`messages/models.py` line 44), so the driver raises an
IntegrityError; the `except` block re-raises it.  No session row is stored
and the database is unchanged. -/
def create_session (db : DB) (now : Int) (newSid : String) :
    DB × Except DbError String :=
  (db, .error (.integrityError "user_id"))

/-- `get_message/crud.py` lines 63-80, `get_lead_by_session`: first lead
with this `session_id`. -/
def get_lead_by_session (db : DB) (session_id : String) : Option LeadRow :=
  db.leads.find? (fun l => l.session_id == session_id)

/-- `get_message/crud.py` lines 84-101, `create_lead`: insert a lead with
the placeholder names and commit. -/
def create_lead (db : DB) (session_id : String) (newLeadId : Nat) :
    LeadRow × DB :=
  let l : LeadRow :=
    { id := newLeadId, first_name := some "Новый", last_name := some "Лид",
      session_id := session_id }
  (l, { db with leads := db.leads ++ [l] })

/-- `get_message/crud.py` lines 10-59, `create_message`: if the session is
absent, `create_session` is called and its IntegrityError (missing NOT NULL
`user_id`) propagates through the `except`/`raise` with the database
unchanged.  If the session exists: bump `last_active` (committed), create a
placeholder lead when none exists for the session (committed; regardless of
any role — this schema has no role), then construct
`Message(text=..., sender=..., session_id=...)` with **no** `role` and
commit.  `Message.role` is `nullable=False` (`messages/models.py` line 19),
so that commit raises an IntegrityError: the pending message insert is
rolled back (no message row is stored) while the earlier commits persist,
and the error is re-raised.  `newLeadId` is the DB-generated lead id.  The
returned pair is (database after the call, raised error). -/
def create_message (mc : GetMessageSchemas.MessageCreate) (now : Int)
    (newLeadId : Nat) (db : DB) : DB × Except DbError Unit :=
  match get_session db mc.session_id with
  | none => (db, .error (.integrityError "user_id"))
  | some _ =>
    let db2 := update_last_active db mc.session_id now
    let db3 := match get_lead_by_session db2 mc.session_id with
      | some _ => db2
      | none => (create_lead db2 mc.session_id newLeadId).2
    (db3, .error (.integrityError "role"))

/-- `get_message/crud.py` lines 105-120: the statement issued by
`get_messages_for_user` — filter by `session_id`, **no** `order_by`. -/
def messagesForUserQuery (session_id : String) : MsgQuery :=
  { wherePred := fun m => m.session_id == session_id, orderKey := none }

end GetMessageCrud

namespace GetMessageRouter

/-- `get_message/router.py` line 28: `SESSION_TIMEOUT = timedelta(hours=1)`,
in seconds. -/
def SESSION_TIMEOUT : Int := 3600

/-- `get_message/router.py` lines 31-58, `get_or_create_session` (the
`session_id`-keyed, 1-hour flow): if the session exists and
`utcnow - last_active < SESSION_TIMEOUT`, bump `last_active` and return the
given `session_id`; otherwise it calls `create_session`, whose
IntegrityError (missing NOT NULL `user_id`) propagates — no session is
created.  The returned pair is (database after the call, result or raised
error). -/
def get_or_create_session (session_id : String) (now : Int) (newSid : String)
    (db : DB) : DB × Except DbError String :=
  match GetMessageCrud.get_session db session_id with
  | some s =>
    if now - s.last_active < SESSION_TIMEOUT then
      (GetMessageCrud.update_last_active db session_id now, .ok session_id)
    else
      GetMessageCrud.create_session db now newSid
  | none => GetMessageCrud.create_session db now newSid

end GetMessageRouter

/-! Concrete fixtures used by witnesses and counterexamples. -/

/-- A session for user `u1`, last active at time 0. -/
def sessFix : SessionRow :=
  { session_id := "s1", user_id := "u1", created_at := 0, last_active := 0 }

/-- A database holding just `sessFix`. -/
def dbFix : DB := { sessions := [sessFix], messages := [], leads := [] }

/-- A clean store over `dbFix`. -/
def stFix : Store := { committed := dbFix, pending := dbFix }

/-- A stored message with `is_sent_to_rabbitmq = false`. -/
def msgFix : MessageRow :=
  { id := 1, text := "hi", sender := "u1", role := .LEAD,
    session_id := "s1", created_at := some 0,
    is_sent_to_rabbitmq := false, is_processed_by_bot := false }

/-- `dbFix` plus the stored message `msgFix`. -/
def dbMsgFix : DB := { sessions := [sessFix], messages := [msgFix], leads := [] }

/-- A clean store over `dbMsgFix`. -/
def stMsgFix : Store := { committed := dbMsgFix, pending := dbMsgFix }

/-- The relay dict for `msgFix`. -/
def mdFix : MessageData :=
  { session_id := "s1", id := 1, text := "hi", sender := "u1",
    created_at := some "1970-01-01T00:00:00" }

/-- A message of session `"s1"` with id 2, created after `msgId1`. -/
def msgId2 : MessageRow :=
  { id := 2, text := "b", sender := "u1", role := .LEAD,
    session_id := "s1", created_at := some 1,
    is_sent_to_rabbitmq := false, is_processed_by_bot := false }

/-- A message of session `"s1"` with id 1. -/
def msgId1 : MessageRow :=
  { id := 1, text := "a", sender := "u1", role := .LEAD,
    session_id := "s1", created_at := some 0,
    is_sent_to_rabbitmq := false, is_processed_by_bot := false }

/-- `"s1"`'s messages physically stored with the higher id first (SQL gives
no physical-order guarantee). -/
def dbUnordered : DB :=
  { sessions := [sessFix], messages := [msgId2, msgId1], leads := [] }

/-- A session still active at the sweep time used below. -/
def sessLive : SessionRow :=
  { session_id := "s2", user_id := "u2", created_at := 150,
    last_active := 150 }

/-- A message of the live session `"s2"`. -/
def msgS2 : MessageRow :=
  { id := 3, text := "c", sender := "u2", role := .LEAD,
    session_id := "s2", created_at := some 150,
    is_sent_to_rabbitmq := false, is_processed_by_bot := false }

/-- A lead of session `"s1"`. -/
def leadS1 : LeadRow :=
  { id := 1, first_name := some "A", last_name := none, session_id := "s1" }

/-- A lead of session `"s2"`. -/
def leadS2 : LeadRow :=
  { id := 2, first_name := some "B", last_name := none, session_id := "s2" }

/-- Database for the expiry-sweep witness: `"s1"` expired, `"s2"` live,
each with one message and one lead. -/
def dbSweep : DB :=
  { sessions := [sessFix, sessLive], messages := [msgId1, msgS2],
    leads := [leadS1, leadS2] }

theorem updateFirst_nil (p : α → Bool) (f : α → α) : updateFirst p f [] = [] := rfl

/-- If `find?` locates a row and the update preserves the predicate, then
after `updateFirst` the same position holds the updated row. -/
theorem find?_updateFirst (p : α → Bool) (f : α → α) (l : List α) (a : α)
    (h : l.find? p = some a) (hf : p (f a) = true) :
    (updateFirst p f l).find? p = some (f a) := by
  induction l with
  | nil => simp [List.find?] at h
  | cons x xs ih =>
    cases hx : p x with
    | true =>
      have hax : x = a := by simpa [List.find?, hx] using h
      subst hax
      simp [updateFirst, hx, List.find?, hf]
    | false =>
      have h' : xs.find? p = some a := by simpa [List.find?, hx] using h
      simpa [updateFirst, hx, List.find?] using ih h'

/-- C9: if the relay's defensive re-fetch finds no message row with the
given id, `send_to_rabbitmq` logs and returns normally — no error is raised
to the caller, the store is left unchanged (no flag is set) and nothing is
published (empty broker trace). -/
theorem C9_relay_missing_message_noop (md : MessageData) (publishOk : Bool)
    (st : Store)
    (h : st.pending.messages.find? (fun m => m.id == md.id) = none) :
    MessagesRouter.send_to_rabbitmq md publishOk st =
      (st, MessagesRouter.RelayOutcome.noMessage, []) := by
  unfold MessagesRouter.send_to_rabbitmq
  rw [h]

/-- Witness for C9 at a concrete store holding no message with id 1. -/
theorem C9_witness :
    stFix.pending.messages.find? (fun m => m.id == mdFix.id) = none ∧
    MessagesRouter.send_to_rabbitmq mdFix true stFix =
      (stFix, MessagesRouter.RelayOutcome.noMessage, []) :=
  ⟨by decide, C9_relay_missing_message_noop mdFix true stFix (by decide)⟩

/-- C1 counterexample: a store holds one message whose `is_sent_to_rabbitmq`
is `false`; the broker publish fails.  `send_to_rabbitmq` re-raises, but the
flag in the committed store is `true` afterwards, not its pre-call value
`false`: the `commit` preceding the publish persisted the flag and the
`rollback` in the exception handler cannot undo it.  This refutes the
claim's "flag equals its value before the call" conjunct. -/
theorem C1_counterexample :
    stMsgFix.committed.messages.map (fun m => m.is_sent_to_rabbitmq) = [false] ∧
    (MessagesRouter.send_to_rabbitmq mdFix false stMsgFix).2.1 =
      MessagesRouter.RelayOutcome.raised ∧
    (MessagesRouter.send_to_rabbitmq mdFix false stMsgFix).1.committed.messages.map
      (fun m => m.is_sent_to_rabbitmq) = [true] := by
  decide

/-- C1 amended: if the broker publish raises, `send_to_rabbitmq` re-raises
the error to the caller and the message row still exists with all its
original columns (in particular its text) — but `is_sent_to_rabbitmq` does
**not** revert to its pre-call value: it was committed `true` before the
publish, the `rollback` only discards uncommitted changes, so the flag is
`true` after the call. -/
theorem C1_amended_publish_failure (md : MessageData) (st : Store)
    (m : MessageRow)
    (h : st.pending.messages.find? (fun r => r.id == md.id) = some m) :
    (MessagesRouter.send_to_rabbitmq md false st).2.1 =
      MessagesRouter.RelayOutcome.raised ∧
    (MessagesRouter.send_to_rabbitmq md false st).1.committed.messages.find?
        (fun r => r.id == md.id) = some { m with is_sent_to_rabbitmq := true } ∧
    (MessagesRouter.send_to_rabbitmq md false st).1.pending =
      (MessagesRouter.send_to_rabbitmq md false st).1.committed := by
  have hp : (m.id == md.id) = true := (List.find?_eq_some.mp h).1
  unfold MessagesRouter.send_to_rabbitmq
  rw [h]
  simp only [Bool.false_eq_true, if_false, Store.rollback, Store.commit]
  exact ⟨trivial, find?_updateFirst _ _ _ _ h hp, trivial⟩

/-- Witness for the amended C1 at the concrete store `stMsgFix`. -/
theorem C1_amended_witness :
    stMsgFix.pending.messages.find? (fun r => r.id == mdFix.id) = some msgFix ∧
    ((MessagesRouter.send_to_rabbitmq mdFix false stMsgFix).2.1 =
        MessagesRouter.RelayOutcome.raised ∧
      (MessagesRouter.send_to_rabbitmq mdFix false stMsgFix).1.committed.messages.find?
          (fun r => r.id == mdFix.id) =
        some { msgFix with is_sent_to_rabbitmq := true } ∧
      (MessagesRouter.send_to_rabbitmq mdFix false stMsgFix).1.pending =
        (MessagesRouter.send_to_rabbitmq mdFix false stMsgFix).1.committed) :=
  ⟨by decide, C1_amended_publish_failure mdFix stMsgFix msgFix (by decide)⟩

/-- C10: `receive_message` rejects a falsy `session_id` (absent or empty)
with a client error, and an unknown `session_id` with a not-found error; in
all three cases the store is returned unchanged — no message row is
persisted, no session is created, and nothing touches the broker. -/
theorem C10_unknown_session_rejected (mc : MessagesSchemas.MessageCreate)
    (now : Int) (newId : Nat) (iso : Int → String) (publishOk : Bool)
    (st : Store) :
    (mc.session_id = none →
      MessagesRouter.receive_message mc now newId iso publishOk st =
        (st, MessagesRouter.ReceiveOutcome.clientError, [])) ∧
    (mc.session_id = some "" →
      MessagesRouter.receive_message mc now newId iso publishOk st =
        (st, MessagesRouter.ReceiveOutcome.clientError, [])) ∧
    (∀ sid, mc.session_id = some sid → (sid == "") = false →
      st.pending.sessions.find? (fun s => s.session_id == sid) = none →
      MessagesRouter.receive_message mc now newId iso publishOk st =
        (st, MessagesRouter.ReceiveOutcome.notFound, [])) := by
  refine ⟨?_, ?_, ?_⟩
  · intro hnone
    unfold MessagesRouter.receive_message
    rw [hnone]
  · intro hempty
    unfold MessagesRouter.receive_message
    rw [hempty]
    simp
  · intro sid hsid hne hfind
    unfold MessagesRouter.receive_message
    rw [hsid]
    simp only [hne, Bool.false_eq_true, if_false]
    rw [hfind]

/-- Witness for C10: unknown session id `"zz"` against the concrete store. -/
theorem C10_witness :
    (stFix.pending.sessions.find? (fun s => s.session_id == "zz") = none) ∧
    MessagesRouter.receive_message
        { text := "hi", sender := "u1", role := .LEAD, session_id := some "zz" }
        5 1 (fun _ => "") true stFix =
      (stFix, MessagesRouter.ReceiveOutcome.notFound, []) :=
  ⟨by decide,
    (C10_unknown_session_rejected
        { text := "hi", sender := "u1", role := .LEAD, session_id := some "zz" }
        5 1 (fun _ => "") true stFix).2.2 "zz" rfl (by decide) (by decide)⟩

/-- The appended new message row is the one the relay's re-fetch finds when
its id is fresh. -/
theorem find?_append_singleton_of_none (p : α → Bool) (l : List α) (a : α)
    (h : l.find? p = none) (ha : p a = true) :
    (l ++ [a]).find? p = some a := by
  rw [List.find?_append, h]
  simp [List.find?, ha]

/-- The relay's effect trace when the re-fetch finds the message: one
connect, one durable queue declaration, one publish — whether or not the
broker accepts the publish. -/
theorem send_to_rabbitmq_effects (md : MessageData) (publishOk : Bool)
    (st : Store) (m : MessageRow)
    (h : st.pending.messages.find? (fun r => r.id == md.id) = some m) :
    (MessagesRouter.send_to_rabbitmq md publishOk st).2.2 =
      [ Effect.brokerConnect,
        Effect.queueDeclare MessagesRouter.QUEUE_NAME true,
        Effect.publish md.toJson true MessagesRouter.QUEUE_NAME ] := by
  unfold MessagesRouter.send_to_rabbitmq
  rw [h]
  cases publishOk <;> rfl

/-- C3: with an existing session and a fresh message id, `receive_message`
behaves as follows: when the role is `BOT` the message row is persisted
(flags at their defaults) and there are zero interactions with the broker
client (empty effect trace); when the role is `LEAD` or `MANAGER`
(≠ `BOT`) exactly one publish call is attempted, whether or not the broker
accepts it. -/
theorem C3_bot_skipped_nonbot_published (mc : MessagesSchemas.MessageCreate)
    (now : Int) (newId : Nat) (iso : Int → String) (publishOk : Bool)
    (st : Store) (sid : String) (sess : SessionRow)
    (hsid : mc.session_id = some sid) (hne : (sid == "") = false)
    (hs : st.pending.sessions.find? (fun s => s.session_id == sid) = some sess)
    (hfresh : st.pending.messages.find? (fun m => m.id == newId) = none) :
    (mc.role = MessageRole.BOT →
      (MessagesRouter.receive_message mc now newId iso publishOk st).2.2 = [] ∧
      ({ id := newId, text := mc.text, sender := mc.sender,
         role := mc.role, session_id := sid, created_at := some now,
         is_sent_to_rabbitmq := false, is_processed_by_bot := false } :
           MessageRow) ∈
        (MessagesRouter.receive_message mc now newId iso publishOk st).1.committed.messages) ∧
    (mc.role ≠ MessageRole.BOT →
      countPublishes
        (MessagesRouter.receive_message mc now newId iso publishOk st).2.2 = 1) := by
  have hrow : (st.pending.messages ++
      [({ id := newId, text := mc.text, sender := mc.sender,
          role := mc.role, session_id := sid, created_at := some now,
          is_sent_to_rabbitmq := false, is_processed_by_bot := false } :
            MessageRow)]).find? (fun m => m.id == newId) =
      some { id := newId, text := mc.text, sender := mc.sender,
             role := mc.role, session_id := sid, created_at := some now,
             is_sent_to_rabbitmq := false, is_processed_by_bot := false } :=
    find?_append_singleton_of_none _ _ _ hfresh (by simp)
  unfold MessagesRouter.receive_message
  rw [hsid]
  simp only [hne, Bool.false_eq_true, if_false]
  rw [hs]
  constructor
  · intro hrole
    simp [hrole, Store.commit]
  · intro hrole
    rw [if_pos hrole]
    rw [send_to_rabbitmq_effects _ _ _ _ hrow]
    rfl

/-- Witness for C3: a concrete LEAD-role message against the store `stFix`
yields exactly one publish call. -/
theorem C3_witness :
    stFix.pending.sessions.find? (fun s => s.session_id == "s1") = some sessFix ∧
    stFix.pending.messages.find? (fun m => m.id == 1) = none ∧
    countPublishes
      (MessagesRouter.receive_message
        { text := "hi", sender := "u1", role := .LEAD, session_id := some "s1" }
        5 1 (fun _ => "") true stFix).2.2 = 1 :=
  ⟨by decide, by decide,
    (C3_bot_skipped_nonbot_published
      { text := "hi", sender := "u1", role := .LEAD, session_id := some "s1" }
      5 1 (fun _ => "") true stFix "s1" sessFix rfl (by decide) (by decide)
      (by decide)).2 (by decide)⟩

/-- C7: for a successful non-`BOT` relay, the full broker trace is one
connect, one durable queue declaration and one publish to the queue
`message_queue` whose body is the flat JSON object with exactly the keys
`id`, `session_id`, `text`, `sender`, `created_at` (the code builds the
dict with `session_id` first; as a JSON object this is a permutation of the
spec's listing), `created_at` rendered by `isoformat`, delivery mode
persistent, and exactly one publish per relay call. -/
theorem C7_wire_format (mc : MessagesSchemas.MessageCreate) (now : Int)
    (newId : Nat) (iso : Int → String) (st : Store) (sid : String)
    (sess : SessionRow)
    (hsid : mc.session_id = some sid) (hne : (sid == "") = false)
    (hs : st.pending.sessions.find? (fun s => s.session_id == sid) = some sess)
    (hfresh : st.pending.messages.find? (fun m => m.id == newId) = none)
    (hrole : mc.role ≠ MessageRole.BOT) :
    (MessagesRouter.receive_message mc now newId iso true st).2.2 =
      [ Effect.brokerConnect,
        Effect.queueDeclare "message_queue" true,
        Effect.publish
          [ ("session_id", JsonVal.str sid), ("id", JsonVal.num (newId : Int)),
            ("text", JsonVal.str mc.text), ("sender", JsonVal.str mc.sender),
            ("created_at", JsonVal.str (iso now)) ] true "message_queue" ] ∧
    List.Perm
      [ ("session_id", JsonVal.str sid), ("id", JsonVal.num (newId : Int)),
        ("text", JsonVal.str mc.text), ("sender", JsonVal.str mc.sender),
        ("created_at", JsonVal.str (iso now)) ]
      [ ("id", JsonVal.num (newId : Int)), ("session_id", JsonVal.str sid),
        ("text", JsonVal.str mc.text), ("sender", JsonVal.str mc.sender),
        ("created_at", JsonVal.str (iso now)) ] ∧
    countPublishes (MessagesRouter.receive_message mc now newId iso true st).2.2 = 1 := by
  have hrow : (st.pending.messages ++
      [({ id := newId, text := mc.text, sender := mc.sender,
          role := mc.role, session_id := sid, created_at := some now,
          is_sent_to_rabbitmq := false, is_processed_by_bot := false } :
            MessageRow)]).find? (fun m => m.id == newId) =
      some { id := newId, text := mc.text, sender := mc.sender,
             role := mc.role, session_id := sid, created_at := some now,
             is_sent_to_rabbitmq := false, is_processed_by_bot := false } :=
    find?_append_singleton_of_none _ _ _ hfresh (by simp)
  have heff : (MessagesRouter.receive_message mc now newId iso true st).2.2 =
      [ Effect.brokerConnect,
        Effect.queueDeclare "message_queue" true,
        Effect.publish
          [ ("session_id", JsonVal.str sid), ("id", JsonVal.num (newId : Int)),
            ("text", JsonVal.str mc.text), ("sender", JsonVal.str mc.sender),
            ("created_at", JsonVal.str (iso now)) ] true "message_queue" ] := by
    unfold MessagesRouter.receive_message
    rw [hsid]
    simp only [hne, Bool.false_eq_true, if_false]
    rw [hs]
    rw [if_pos hrole]
    rw [send_to_rabbitmq_effects _ _ _ _ hrow]
    rfl
  exact ⟨heff, List.Perm.swap _ _ _, by rw [heff]; rfl⟩

/-- Witness for C7 at a concrete MANAGER-role message against `stFix`. -/
theorem C7_witness :
    stFix.pending.sessions.find? (fun s => s.session_id == "s1") = some sessFix ∧
    stFix.pending.messages.find? (fun m => m.id == 1) = none ∧
    (MessagesRouter.receive_message
        { text := "hi", sender := "m1", role := .MANAGER, session_id := some "s1" }
        5 1 (fun _ => "1970-01-01T00:00:05") true stFix).2.2 =
      [ Effect.brokerConnect,
        Effect.queueDeclare "message_queue" true,
        Effect.publish
          [ ("session_id", JsonVal.str "s1"), ("id", JsonVal.num 1),
            ("text", JsonVal.str "hi"), ("sender", JsonVal.str "m1"),
            ("created_at", JsonVal.str "1970-01-01T00:00:05") ]
          true "message_queue" ] :=
  ⟨by decide, by decide,
    (C7_wire_format
      { text := "hi", sender := "m1", role := .MANAGER, session_id := some "s1" }
      5 1 (fun _ => "1970-01-01T00:00:05") stFix "s1" sessFix rfl (by decide)
      (by decide) (by decide) (by decide)).1⟩

/-- C8 counterexample: in the `get_message` flow the schema declares no
text validator, so a request with empty text passes validation; running
`create_message` on it is **not** a rejection before persistence — it
commits persistent side effects (bumps the session's `last_active`,
creates the placeholder lead) and then fails with an IntegrityError (the
role-less message insert), a server-side error, not a client/validation
rejection.  No message row is stored, but only because that insert itself
violates the NOT NULL `role` constraint. -/
theorem C8_counterexample :
    GetMessageSchemas.parse_message_create "" "u1" "s1" =
      Except.ok { text := "", sender := "u1", session_id := "s1" } ∧
    (GetMessageCrud.create_message
        { text := "", sender := "u1", session_id := "s1" } 5 1 dbFix).2 =
      Except.error (DbError.integrityError "role") ∧
    (GetMessageCrud.create_message
        { text := "", sender := "u1", session_id := "s1" } 5 1 dbFix).1.leads =
      [{ id := 1, first_name := some "Новый", last_name := some "Лид",
         session_id := "s1" }] ∧
    (GetMessageCrud.create_message
        { text := "", sender := "u1", session_id := "s1" } 5 1 dbFix).1.sessions.map
      (fun s => s.last_active) = [5] ∧
    (GetMessageCrud.create_message
        { text := "", sender := "u1", session_id := "s1" } 5 1 dbFix).1.messages = [] :=
  ⟨rfl, rfl, by decide, by decide, by decide⟩

/-- C8 amended: in the `messages` flow, a request whose text strips to the
empty string (empty or whitespace-only) is rejected by the pydantic
validator before the handler runs: the endpoint surfaces a validation
(client) error, the store is unchanged and no broker effect occurs, so no
message row is created.  (The `get_message` flow performs no such
validation — see the counterexample.) -/
theorem C8_amended_messages_flow_rejects (text sender : String)
    (role : MessageRole) (session_id : Option String) (now : Int)
    (newId : Nat) (iso : Int → String) (publishOk : Bool) (st : Store)
    (h : pyStrip text = "") :
    MessagesRouter.post_message text sender role session_id now newId iso
        publishOk st =
      (st, MessagesRouter.EndpointOutcome.validationError, []) := by
  unfold MessagesRouter.post_message MessagesSchemas.parse_message_create
    MessagesSchemas.validate_text
  simp [h]

/-- Witness for the amended C8: a whitespace-only text is rejected with the
store untouched. -/
theorem C8_amended_witness :
    pyStrip "   " = "" ∧
    MessagesRouter.post_message "   " "u1" MessageRole.LEAD (some "s1")
        5 1 (fun _ => "") true stFix =
      (stFix, MessagesRouter.EndpointOutcome.validationError, []) :=
  ⟨by decide,
    C8_amended_messages_flow_rejects "   " "u1" MessageRole.LEAD (some "s1")
      5 1 (fun _ => "") true stFix (by decide)⟩

/-- `update_last_active` (an `UPDATE ... WHERE session_id = key`) leaves the
found session in place with its `last_active` set to `now`. -/
theorem find?_update_last_active (key : String) (now : Int)
    (l : List SessionRow) (s : SessionRow)
    (h : l.find? (fun r => r.session_id == key) = some s) :
    (l.map (fun r =>
        if r.session_id == key then { r with last_active := now } else r)).find?
      (fun r => r.session_id == key) = some { s with last_active := now } := by
  induction l with
  | nil => simp [List.find?] at h
  | cons x xs ih =>
    cases hx : (x.session_id == key) with
    | true =>
      have hax : x = s := by simpa [List.find?, hx] using h
      subst hax
      simp [List.find?, hx]
    | false =>
      have h' : xs.find? (fun r => r.session_id == key) = some s := by
        simpa [List.find?, hx] using h
      simpa [List.find?, hx] using ih h'

/-- C2 counterexample: in the `user_id`-keyed (2-minute) flow, at the exact
TTL boundary (`now - last_active = SESSION_LIFETIME`, so **not** `< TTL`)
the claim requires a new session, but `get_or_create_session` reuses the
existing session id `"s1"` and creates no new row: the code expires only on
strict `now - last_active > SESSION_LIFETIME`. -/
theorem C2_counterexample :
    ¬ ((120 : Int) - sessFix.last_active < MessagesRouter.SESSION_LIFETIME) ∧
    (MessagesRouter.get_or_create_session "u1" 120 "s2" dbFix).1 = "s1" ∧
    (MessagesRouter.get_or_create_session "u1" 120 "s2" dbFix).2.sessions.map
      (fun s => s.session_id) = ["s1"] := by
  decide

/-- C2 amended: session resolution behaves as claimed only where the code
can perform it.  `messages/router.py` (TTL 2 min, `user_id`-keyed) reuses
the existing session and bumps `last_active := now` iff
`now - last_active ≤ SESSION_LIFETIME` (expiry is strict `>`), otherwise it
creates and persists a session with the freshly generated id and
`created_at = last_active = now`.  `get_message/router.py` (TTL 1 h,
`session_id`-keyed) reuses iff `now - last_active < SESSION_TIMEOUT`,
exactly as claimed — but when the session is expired or absent the claimed
creation cannot happen: `create_session`'s INSERT omits the NOT NULL
`user_id` column, so it raises an IntegrityError and leaves the store
unchanged; no session is created and no id is returned. -/
theorem C2_amended_session_resolution (db : DB) (uid key newSid : String)
    (now : Int) :
    (∀ s, db.sessions.find? (fun r => r.user_id == uid) = some s →
      (now - s.last_active ≤ MessagesRouter.SESSION_LIFETIME →
        (MessagesRouter.get_or_create_session uid now newSid db).1 = s.session_id ∧
        (MessagesRouter.get_or_create_session uid now newSid db).2.sessions.find?
            (fun r => r.user_id == uid) = some { s with last_active := now }) ∧
      (now - s.last_active > MessagesRouter.SESSION_LIFETIME →
        (MessagesRouter.get_or_create_session uid now newSid db).1 = newSid ∧
        ({ session_id := newSid, user_id := uid, created_at := now,
           last_active := now } : SessionRow) ∈
          (MessagesRouter.get_or_create_session uid now newSid db).2.sessions)) ∧
    (db.sessions.find? (fun r => r.user_id == uid) = none →
      (MessagesRouter.get_or_create_session uid now newSid db).1 = newSid ∧
      ({ session_id := newSid, user_id := uid, created_at := now,
         last_active := now } : SessionRow) ∈
        (MessagesRouter.get_or_create_session uid now newSid db).2.sessions) ∧
    (∀ s, GetMessageCrud.get_session db key = some s →
      (now - s.last_active < GetMessageRouter.SESSION_TIMEOUT →
        (GetMessageRouter.get_or_create_session key now newSid db).2 =
          Except.ok key ∧
        GetMessageCrud.get_session
            (GetMessageRouter.get_or_create_session key now newSid db).1 key =
          some { s with last_active := now }) ∧
      (¬ now - s.last_active < GetMessageRouter.SESSION_TIMEOUT →
        (GetMessageRouter.get_or_create_session key now newSid db).2 =
          Except.error (DbError.integrityError "user_id") ∧
        (GetMessageRouter.get_or_create_session key now newSid db).1 = db)) ∧
    (GetMessageCrud.get_session db key = none →
      (GetMessageRouter.get_or_create_session key now newSid db).2 =
        Except.error (DbError.integrityError "user_id") ∧
      (GetMessageRouter.get_or_create_session key now newSid db).1 = db) := by
  refine ⟨?_, ?_, ?_, ?_⟩
  · intro s hs
    constructor
    · intro hle
      unfold MessagesRouter.get_or_create_session
      rw [hs]
      dsimp only
      rw [if_neg (not_lt.mpr hle)]
      refine ⟨rfl, ?_⟩
      exact find?_updateFirst _ _ _ _ hs (List.find?_eq_some.mp hs).1
    · intro hgt
      unfold MessagesRouter.get_or_create_session MessagesRouter.create_new_session
      rw [hs]
      dsimp only
      rw [if_pos hgt]
      exact ⟨rfl, by simp⟩
  · intro hnone
    unfold MessagesRouter.get_or_create_session MessagesRouter.create_new_session
    rw [hnone]
    dsimp only
    exact ⟨rfl, by simp⟩
  · intro s hs
    constructor
    · intro hlt
      unfold GetMessageRouter.get_or_create_session
      rw [hs]
      dsimp only
      rw [if_pos hlt]
      refine ⟨rfl, ?_⟩
      unfold GetMessageCrud.get_session GetMessageCrud.update_last_active
      exact find?_update_last_active key now db.sessions s hs
    · intro hnlt
      unfold GetMessageRouter.get_or_create_session GetMessageCrud.create_session
      rw [hs]
      dsimp only
      rw [if_neg hnlt]
      exact ⟨rfl, rfl⟩
  · intro hnone
    unfold GetMessageRouter.get_or_create_session GetMessageCrud.create_session
    rw [hnone]
    exact ⟨rfl, rfl⟩

/-- Witness for the amended C2: against `dbFix` the 2-minute flow reuses
session `"s1"` at `now = 60`; at `now = 3600` the expired 1-hour flow
raises the IntegrityError and leaves the store unchanged. -/
theorem C2_amended_witness :
    dbFix.sessions.find? (fun r => r.user_id == "u1") = some sessFix ∧
    (60 : Int) - sessFix.last_active ≤ MessagesRouter.SESSION_LIFETIME ∧
    (MessagesRouter.get_or_create_session "u1" 60 "s2" dbFix).1 = sessFix.session_id ∧
    GetMessageCrud.get_session dbFix "s1" = some sessFix ∧
    ¬ (3600 : Int) - sessFix.last_active < GetMessageRouter.SESSION_TIMEOUT ∧
    (GetMessageRouter.get_or_create_session "s1" 3600 "s2" dbFix).2 =
      Except.error (DbError.integrityError "user_id") :=
  ⟨by decide, by decide,
    (((C2_amended_session_resolution dbFix "u1" "s1" "s2" 60).1 sessFix
      (by decide)).1 (by decide)).1,
    by decide, by decide,
    (((C2_amended_session_resolution dbFix "u1" "s1" "s2" 3600).2.2.1 sessFix
      (by decide)).2 (by decide)).1⟩

/-- C4 counterexample: the statement issued by `get_messages_for_user`
(`get_message/crud.py`) carries no `order_by`, so SQL admits any row order;
with the two messages of session `"s1"` stored higher-id first, the list
`[msgId2, msgId1]` is a valid result of that query and it is not in
increasing-id order — refuting "every message-listing operation returns
... increasing id/created_at order". -/
theorem C4_counterexample :
    queryResult dbUnordered (GetMessageCrud.messagesForUserQuery "s1")
      [msgId2, msgId1] ∧
    ¬ [msgId2, msgId1].Pairwise (fun a b => a.id ≤ b.id) := by
  refine ⟨⟨?_, ?_⟩, ?_⟩
  · decide
  · intro k hk
    simp [GetMessageCrud.messagesForUserQuery] at hk
  · decide

/-- C4 amended: `get_message_history` (`messages/router.py`) orders by
`Message.id.asc()`: every result the query admits lists the session's
messages (exactly the rows with this `session_id`) in increasing-id order.
`get_messages_for_user` gives no such guarantee (see the counterexample). -/
theorem C4_amended_history_ordered (db : DB) (sid : String)
    (out : List MessageRow)
    (h : queryResult db (MessagesRouter.historyQuery sid) out) :
    out.Pairwise (fun a b => a.id ≤ b.id) ∧
    out.Perm (db.messages.filter (fun m => m.session_id == sid)) := by
  obtain ⟨hperm, hord⟩ := h
  refine ⟨?_, hperm⟩
  have h2 := hord (fun m => (m.id : Int)) rfl
  exact h2.imp (fun hab => by simpa using hab)

/-- Witness for the amended C4: the id-sorted listing of `dbUnordered`'s
session `"s1"` is a valid history-query result and is sorted. -/
theorem C4_amended_witness :
    queryResult dbUnordered (MessagesRouter.historyQuery "s1")
      [msgId1, msgId2] ∧
    [msgId1, msgId2].Pairwise (fun a b => a.id ≤ b.id) := by
  have hq : queryResult dbUnordered (MessagesRouter.historyQuery "s1")
      [msgId1, msgId2] := by
    constructor
    · decide
    · intro k hk
      injection hk with hk
      subst hk
      decide
  exact ⟨hq, (C4_amended_history_ordered dbUnordered "s1" [msgId1, msgId2] hq).1⟩

/-- A session survives the sweep iff it was stored and not expired. -/
theorem cleanup_sessions_mem (db : DB) (now : Int) (s' : SessionRow) :
    s' ∈ (MessagesRouter.cleanup_expired_sessions now db).sessions ↔
      s' ∈ db.sessions ∧
      ¬ s'.last_active < now - MessagesRouter.SESSION_LIFETIME := by
  unfold MessagesRouter.cleanup_expired_sessions
  simp [List.mem_filter]

/-- A message survives the sweep iff it was stored and belongs to no
expired session. -/
theorem cleanup_messages_mem (db : DB) (now : Int) (m : MessageRow) :
    m ∈ (MessagesRouter.cleanup_expired_sessions now db).messages ↔
      m ∈ db.messages ∧
      ¬ ∃ s, s ∈ db.sessions ∧
        s.last_active < now - MessagesRouter.SESSION_LIFETIME ∧
        s.session_id = m.session_id := by
  unfold MessagesRouter.cleanup_expired_sessions
  simp [List.mem_filter, List.mem_map]

/-- A lead survives the sweep iff it was stored and belongs to no expired
session. -/
theorem cleanup_leads_mem (db : DB) (now : Int) (l : LeadRow) :
    l ∈ (MessagesRouter.cleanup_expired_sessions now db).leads ↔
      l ∈ db.leads ∧
      ¬ ∃ s, s ∈ db.sessions ∧
        s.last_active < now - MessagesRouter.SESSION_LIFETIME ∧
        s.session_id = l.session_id := by
  unfold MessagesRouter.cleanup_expired_sessions
  simp [List.mem_filter, List.mem_map]

/-- C5: after `cleanup_expired_sessions` runs at time `now`, every session
whose `last_active` is older than the cutoff `now - SESSION_LIFETIME` is
absent together with all of its messages and its lead(s) (cascade delete),
and every session within the TTL is still present with all of its messages
and leads intact.  `huniq` is the `unique=True` constraint on
`Session.session_id`. -/
theorem C5_cleanup_sweep (db : DB) (now : Int)
    (huniq : (db.sessions.map (fun s => s.session_id)).Nodup) :
    (∀ s ∈ db.sessions, s.last_active < now - MessagesRouter.SESSION_LIFETIME →
      (∀ s' ∈ (MessagesRouter.cleanup_expired_sessions now db).sessions,
        s'.session_id ≠ s.session_id) ∧
      (∀ m ∈ (MessagesRouter.cleanup_expired_sessions now db).messages,
        m.session_id ≠ s.session_id) ∧
      (∀ l ∈ (MessagesRouter.cleanup_expired_sessions now db).leads,
        l.session_id ≠ s.session_id)) ∧
    (∀ s ∈ db.sessions, ¬ s.last_active < now - MessagesRouter.SESSION_LIFETIME →
      s ∈ (MessagesRouter.cleanup_expired_sessions now db).sessions ∧
      (∀ m ∈ db.messages, m.session_id = s.session_id →
        m ∈ (MessagesRouter.cleanup_expired_sessions now db).messages) ∧
      (∀ l ∈ db.leads, l.session_id = s.session_id →
        l ∈ (MessagesRouter.cleanup_expired_sessions now db).leads)) := by
  have hinj : ∀ ⦃x⦄, x ∈ db.sessions → ∀ ⦃y⦄, y ∈ db.sessions →
      x.session_id = y.session_id → x = y :=
    fun _ hx _ hy h => List.inj_on_of_nodup_map huniq hx hy h
  refine ⟨?_, ?_⟩
  · intro s hs hexp
    refine ⟨?_, ?_, ?_⟩
    · intro s' hs' heq
      rw [cleanup_sessions_mem] at hs'
      have hss : s' = s := hinj hs'.1 hs heq
      exact hs'.2 (hss ▸ hexp)
    · intro m hm heq
      rw [cleanup_messages_mem] at hm
      exact hm.2 ⟨s, hs, hexp, heq.symm⟩
    · intro l hl heq
      rw [cleanup_leads_mem] at hl
      exact hl.2 ⟨s, hs, hexp, heq.symm⟩
  · intro s hs hlive
    refine ⟨?_, ?_, ?_⟩
    · rw [cleanup_sessions_mem]
      exact ⟨hs, hlive⟩
    · intro m hm heq
      rw [cleanup_messages_mem]
      refine ⟨hm, ?_⟩
      rintro ⟨s'', hs'', hexp'', heq''⟩
      have : s'' = s := hinj hs'' hs (heq''.trans heq)
      exact hlive (this ▸ hexp'')
    · intro l hl heq
      rw [cleanup_leads_mem]
      refine ⟨hl, ?_⟩
      rintro ⟨s'', hs'', hexp'', heq''⟩
      have : s'' = s := hinj hs'' hs (heq''.trans heq)
      exact hlive (this ▸ hexp'')

/-- Witness for C5: sweeping `dbSweep` at `now = 200` removes the expired
session `"s1"` and cascades to its messages, while the live session `"s2"`
survives. -/
theorem C5_witness :
    (dbSweep.sessions.map (fun s => s.session_id)).Nodup ∧
    sessFix ∈ dbSweep.sessions ∧
    sessFix.last_active < 200 - MessagesRouter.SESSION_LIFETIME ∧
    (∀ m ∈ (MessagesRouter.cleanup_expired_sessions 200 dbSweep).messages,
      m.session_id ≠ sessFix.session_id) ∧
    sessLive ∈ (MessagesRouter.cleanup_expired_sessions 200 dbSweep).sessions :=
  ⟨by decide, by decide, by decide,
    ((C5_cleanup_sweep dbSweep 200 (by decide)).1 sessFix (by decide)
      (by decide)).2.1,
    ((C5_cleanup_sweep dbSweep 200 (by decide)).2 sessLive (by decide)
      (by decide)).1⟩

/-- `send_to_rabbitmq` never touches the `leads` table: the pending leads
are preserved, and the committed leads are either the pre-call pending ones
(after its commit) or the pre-call committed ones (untouched). -/
theorem send_to_rabbitmq_leads (md : MessageData) (publishOk : Bool)
    (st : Store) :
    (MessagesRouter.send_to_rabbitmq md publishOk st).1.pending.leads =
      st.pending.leads ∧
    ((MessagesRouter.send_to_rabbitmq md publishOk st).1.committed.leads =
        st.pending.leads ∨
      (MessagesRouter.send_to_rabbitmq md publishOk st).1.committed.leads =
        st.committed.leads) := by
  unfold MessagesRouter.send_to_rabbitmq
  cases hf : st.pending.messages.find? (fun m => m.id == md.id) with
  | none => exact ⟨rfl, Or.inr rfl⟩
  | some m =>
    cases publishOk with
    | true => exact ⟨rfl, Or.inl rfl⟩
    | false => exact ⟨rfl, Or.inl rfl⟩

/-- `receive_message` never touches the `leads` table. -/
theorem receive_message_leads (mc : MessagesSchemas.MessageCreate)
    (now : Int) (newId : Nat) (iso : Int → String) (publishOk : Bool)
    (st : Store) :
    (MessagesRouter.receive_message mc now newId iso publishOk st).1.pending.leads =
      st.pending.leads ∧
    ((MessagesRouter.receive_message mc now newId iso publishOk st).1.committed.leads =
        st.pending.leads ∨
      (MessagesRouter.receive_message mc now newId iso publishOk st).1.committed.leads =
        st.committed.leads) := by
  unfold MessagesRouter.receive_message
  cases hsid : mc.session_id with
  | none => exact ⟨rfl, Or.inr rfl⟩
  | some sid =>
    cases hne : (sid == "") with
    | true =>
      dsimp only
      rw [if_pos hne]
      exact ⟨rfl, Or.inr rfl⟩
    | false =>
      dsimp only
      rw [if_neg (by simp [hne])]
      cases hs : st.pending.sessions.find? (fun s => s.session_id == sid) with
      | none => exact ⟨rfl, Or.inr rfl⟩
      | some sess =>
        dsimp only
        by_cases hrole : mc.role = MessageRole.BOT
        · rw [if_neg (by simp [hrole])]
          exact ⟨rfl, Or.inl rfl⟩
        · rw [if_pos hrole]
          have := send_to_rabbitmq_leads
            { session_id := sid, id := newId, text := mc.text,
              sender := mc.sender, created_at := some (iso now) }
            publishOk
            (Store.commit
              { st with
                pending := { st.pending with
                  messages := st.pending.messages ++
                    [{ id := newId, text := mc.text, sender := mc.sender,
                       role := mc.role, session_id := sid,
                       created_at := some now, is_sent_to_rabbitmq := false,
                       is_processed_by_bot := false }] } })
          refine ⟨this.1, ?_⟩
          rcases this.2 with h | h
          · exact Or.inl h
          · exact Or.inl h

/-- C6 counterexample: a LEAD-role message posted to `receive_message`
(`messages/router.py`) for session `"s1"`, which has no lead yet, leaves
the leads table empty — this endpoint never auto-creates a lead, contrary
to the claim's "a Lead row is created for the session". -/
theorem C6_counterexample :
    ({ text := "hi", sender := "u1", role := MessageRole.LEAD,
       session_id := some "s1" } : MessagesSchemas.MessageCreate).role =
      MessageRole.LEAD ∧
    stFix.committed.leads = [] ∧
    (MessagesRouter.receive_message
        { text := "hi", sender := "u1", role := .LEAD, session_id := some "s1" }
        5 1 (fun _ => "") true stFix).1.committed.leads = [] ∧
    (MessagesRouter.receive_message
        { text := "hi", sender := "u1", role := .LEAD, session_id := some "s1" }
        5 1 (fun _ => "") true stFix).1.committed.messages.map
      (fun m => m.role) = [MessageRole.LEAD] := by
  decide

/-- C6 amended: lead auto-creation lives only in the `get_message` flow and
is role-independent.  `create_message` commits exactly one lead with the
placeholder names (`"Новый"`/`"Лид"`) — before its role-less message insert
fails — the first time the session receives any message and no lead exists
yet; when a lead already exists it creates none (so sequential calls keep
at most one lead per session); and `receive_message` (the role-aware
`messages` flow) never creates a lead, not even for the first LEAD-role
message. -/
theorem C6_amended_lead_creation (db : DB)
    (mc : GetMessageSchemas.MessageCreate) (now : Int)
    (newLeadId : Nat) (s : SessionRow)
    (hsess : GetMessageCrud.get_session db mc.session_id = some s) :
    (GetMessageCrud.get_lead_by_session db mc.session_id = none →
      (GetMessageCrud.create_message mc now newLeadId db).1.leads =
        db.leads ++ [{ id := newLeadId, first_name := some "Новый",
                       last_name := some "Лид", session_id := mc.session_id }]) ∧
    (∀ l, GetMessageCrud.get_lead_by_session db mc.session_id = some l →
      (GetMessageCrud.create_message mc now newLeadId db).1.leads =
        db.leads) ∧
    (∀ (mc2 : MessagesSchemas.MessageCreate) (now2 : Int) (newId : Nat)
        (iso : Int → String) (publishOk : Bool) (st : Store),
      (MessagesRouter.receive_message mc2 now2 newId iso publishOk st).1.pending.leads =
        st.pending.leads ∧
      ((MessagesRouter.receive_message mc2 now2 newId iso publishOk st).1.committed.leads =
          st.pending.leads ∨
        (MessagesRouter.receive_message mc2 now2 newId iso publishOk st).1.committed.leads =
          st.committed.leads)) := by
  refine ⟨?_, ?_, ?_⟩
  · intro hnolead
    unfold GetMessageCrud.create_message
    rw [hsess]
    dsimp only
    unfold GetMessageCrud.update_last_active GetMessageCrud.get_lead_by_session
      GetMessageCrud.create_lead
    dsimp only
    rw [show db.leads.find? (fun l => l.session_id == mc.session_id) = none from
      hnolead]
  · intro l hlead
    unfold GetMessageCrud.create_message
    rw [hsess]
    dsimp only
    unfold GetMessageCrud.update_last_active GetMessageCrud.get_lead_by_session
      GetMessageCrud.create_lead
    dsimp only
    rw [show db.leads.find? (fun l => l.session_id == mc.session_id) = some l from
      hlead]
  · intro mc2 now2 newId iso publishOk st
    exact receive_message_leads mc2 now2 newId iso publishOk st

/-- Witness for the amended C6: against `dbFix` (session `"s1"`, no lead), a
message creates exactly the placeholder lead, and `receive_message` leaves
the leads of `stFix` untouched. -/
theorem C6_amended_witness :
    GetMessageCrud.get_session dbFix "s1" = some sessFix ∧
    GetMessageCrud.get_lead_by_session dbFix "s1" = none ∧
    (GetMessageCrud.create_message
        { text := "hi", sender := "u1", session_id := "s1" }
        5 7 dbFix).1.leads =
      dbFix.leads ++ [{ id := 7, first_name := some "Новый",
                        last_name := some "Лид", session_id := "s1" }] ∧
    (MessagesRouter.receive_message
        { text := "hi", sender := "u1", role := .LEAD, session_id := some "s1" }
        5 1 (fun _ => "") true stFix).1.pending.leads = stFix.pending.leads :=
  ⟨by decide, by decide,
    (C6_amended_lead_creation dbFix
      { text := "hi", sender := "u1", session_id := "s1" }
      5 7 sessFix (by decide)).1 (by decide),
    ((C6_amended_lead_creation dbFix
      { text := "hi", sender := "u1", session_id := "s1" }
      5 7 sessFix (by decide)).2.2
      { text := "hi", sender := "u1", role := .LEAD, session_id := some "s1" }
      5 1 (fun _ => "") true stFix).1⟩
